import Mathlib

/-!
Verification of the `tapas` download-extract-transform pipeline
(`tapas/dataset.py` and `tapas/pipeline.py`).

The development shallowly embeds the pipeline: paths are strings, the file
system is an explicit state (`FS`), CSV tables are header/row lists, and the
network is an explicit parameter.  Each numbered claim about the pipeline is
settled by a theorem at the end of the file.
-/

/-! ## Character-list utilities

The Python code manipulates URLs and paths as strings.  We model the relevant
string primitives (`str.startswith`, `str.endswith`, `urllib.parse` query
extraction, `re.search(r"/files/(\d+)")`, `pathlib` joins) over `List Char`,
which keeps everything executable and kernel-reducible.
-/

/-- Does the character list `s` start with the list `p`?  Model of
`str.startswith` at character level. -/
def listStarts : List Char → List Char → Bool
  | _, [] => true
  | [], _ :: _ => false
  | a :: as, b :: bs => a == b && listStarts as bs

/-- Model of `str.startswith`. -/
def strStarts (s p : String) : Bool :=
  listStarts s.data p.data

/-- Model of `str.endswith`. -/
def strEnds (s p : String) : Bool :=
  listStarts s.data.reverse p.data.reverse

/-- Remove the leading occurrence of `p` from `s`, if `s` starts with `p`. -/
def stripLead : List Char → List Char → Option (List Char)
  | [], s => some s
  | _ :: _, [] => none
  | a :: ps, b :: ss => if a = b then stripLead ps ss else none

/-- The part of `cs` strictly before the first occurrence of `c`
(all of `cs` if `c` does not occur). -/
def takeUntil (c : Char) : List Char → List Char
  | [] => []
  | d :: ds => if d = c then [] else d :: takeUntil c ds

/-- The part of `cs` strictly after the first occurrence of `c`
(empty if `c` does not occur).  This matches the query produced by
`urllib.parse.urlsplit`, which yields an empty query when no `?` occurs. -/
def dropThrough (c : Char) : List Char → List Char
  | [] => []
  | d :: ds => if d = c then ds else dropThrough c ds

/-- Split `cs` at every occurrence of `c` (the separators are dropped).
Model of `str.split(c)`; used for `parse_qs`'s split on `&`. -/
def splitOnChar (c : Char) : List Char → List (List Char)
  | [] => [[]]
  | d :: ds =>
    let r := splitOnChar c ds
    if d = c then [] :: r
    else
      match r with
      | [] => [[d]]
      | h :: t => (d :: h) :: t

/-- Split a `name=value` chunk at its first `=`, as `str.split("=", 1)` does
inside `urllib.parse.parse_qsl`; `none` when there is no `=`. -/
def splitKV : List Char → Option (List Char × List Char)
  | [] => none
  | d :: ds =>
    if d = '=' then some ([], ds)
    else
      match splitKV ds with
      | none => none
      | some (n, v) => some (d :: n, v)

/-- Maximal leading run of ASCII digits; the greedy capture of `\d+`. -/
def takeDigits : List Char → List Char
  | [] => []
  | c :: cs => if c.isDigit then c :: takeDigits cs else []

/-- Is the head of the list (if any) not a digit?  Used to state where a
`\d+` capture must stop. -/
def headNotDigit : List Char → Bool
  | [] => true
  | c :: _ => !c.isDigit

/-- Attempt of the pattern `/files/(\d+)` at the start of `cs`: the literal
`/files/` followed by at least one digit; returns the greedy digit capture. -/
def matchAt (cs : List Char) : Option (List Char) :=
  match stripLead "/files/".data cs with
  | none => none
  | some rest =>
    let ds := takeDigits rest
    if ds.isEmpty then none else some ds

/-- Leftmost search for `/files/(\d+)`, the model of
`re.search(r"/files/(\d+)", url)`: try the pattern at each position from the
left and return the first capture. -/
def findFilesId : List Char → Option (List Char)
  | [] => none
  | c :: cs =>
    match matchAt (c :: cs) with
    | some ds => some ds
    | none => findFilesId cs

/-- No attempt of the `/files/(\d+)` pattern starting inside `xs` (including
attempts that run over into `ys`) succeeds.  This is the decidable side
condition under which a leftmost search over `xs ++ ys` continues into `ys`. -/
def noStraddleMatch : List Char → List Char → Bool
  | [], _ => true
  | x :: xs, ys => (matchAt ((x :: xs) ++ ys)).isNone && noStraddleMatch xs ys

/-! ## Path utilities (model of `pathlib` operations) -/

/-- Path join, the `/` operator of `pathlib`. -/
def joinP (a b : String) : String :=
  a ++ "/" ++ b

/-- Everything before the last `/` of a path; `Path.parent`
(empty for a bare name). -/
def parentOf (p : String) : String :=
  String.mk (((p.data.reverse.dropWhile (fun c => c != '/')).drop 1).reverse)

/-- The last component of a path; `Path.name`. -/
def baseName (p : String) : String :=
  String.mk ((p.data.reverse.takeWhile (fun c => c != '/')).reverse)

/-- `str(p.relative_to(root))`: strip the leading `root ++ "/"`. -/
def relativeTo (root p : String) : String :=
  match stripLead (root.data ++ [ '/' ]) p.data with
  | some r => String.mk r
  | none => p

/-- Every proper prefix of `cs` that ends just before a `/`, i.e. the strict
ancestors of a path. -/
def properJoinsAux (acc : List Char) : List Char → List (List Char)
  | [] => []
  | c :: rest =>
    if c = '/' then acc :: properJoinsAux (acc ++ [c]) rest
    else properJoinsAux (acc ++ [c]) rest

/-- A path together with all its strict ancestors: the set of directories
`Path.mkdir(parents=True, exist_ok=True)` guarantees to exist afterwards. -/
def ancestorPaths (p : String) : List String :=
  (properJoinsAux [] p.data).map String.mk ++ [p]

/-- Strip one trailing `/` (zip directory entries are named with one). -/
def dropTrailingSlash (s : String) : String :=
  if strEnds s "/" then String.mk (s.data.dropLast) else s

/-! ## Data model: CSV contents, zip archives, and the file system -/

/-- Content of a regular file, as far as the pipeline inspects it: either a
well-formed CSV table (a header row plus data rows, as `pandas.read_csv`
sees it: `len(df)` data rows, `len(df.columns)` columns), or a file on which
`pandas.read_csv` raises. -/
inductive Content where
  | csv (header : List String) (rows : List (List String))
  | bad
deriving DecidableEq, Repr

/-- One member of a zip archive: its name as recorded in the archive (names
ending in `/` are directory entries) and, for file entries, its content. -/
structure ZipEntry where
  name : String
  content : Content
deriving DecidableEq, Repr

/-- What a path on disk holds: a plain file, or a valid zip archive
(opening a `plain` file with `zipfile.ZipFile` raises `BadZipFile`). -/
inductive FileData where
  | plain (c : Content)
  | zipArchive (entries : List ZipEntry)
deriving DecidableEq, Repr

/-- The file-system state: the set of existing directories and the existing
regular files with their data. -/
structure FS where
  dirs : List String
  files : List (String × FileData)
deriving DecidableEq, Repr

/-- The data at path `p`, if a regular file exists there. -/
def FS.fileAt (fs : FS) (p : String) : Option FileData :=
  match fs.files.find? (fun e => e.1 == p) with
  | some e => some e.2
  | none => none

/-- Does a regular file exist at `p`? -/
def FS.isFile (fs : FS) (p : String) : Bool :=
  (fs.fileAt p).isSome

/-- Does a directory exist at `p`? -/
def FS.isDir (fs : FS) (p : String) : Bool :=
  fs.dirs.contains p

/-- `Path.exists()`: a file or directory exists at `p`. -/
def FS.pathExists (fs : FS) (p : String) : Bool :=
  fs.isFile p || fs.isDir p

/-- Write (or overwrite) the regular file at `p`. -/
def FS.writeFile (fs : FS) (p : String) (d : FileData) : FS :=
  { fs with files := (p, d) :: fs.files.filter (fun e => !(e.1 == p)) }

/-- `Path.mkdir(parents=True, exist_ok=True)`: afterwards `p` and all its
ancestors are directories. -/
def FS.mkdirParents (fs : FS) (p : String) : FS :=
  { fs with dirs := fs.dirs ++ ancestorPaths p }

/-- Is `p` a direct child of directory `dir` whose name matches the glob
pattern `*.csv`?  (`pathlib.Path.glob` is non-recursive and, unlike the
`glob` module, does not treat names starting with a dot specially.) -/
def isCsvChild (dir p : String) : Bool :=
  match stripLead (dir.data ++ [ '/' ]) p.data with
  | some rest =>
    !rest.isEmpty && rest.all (fun c => c != '/') &&
      listStarts rest.reverse ".csv".data.reverse
  | none => false

/-- Model of `dir.glob("*.csv")`: the direct children of `dir` (files and
directories both — glob matches directories too) whose name ends in `.csv`,
in the (unspecified) enumeration order of the file-system state. -/
def FS.globCsv (fs : FS) (dir : String) : List String :=
  (fs.files.map (fun e => e.1) ++ fs.dirs).filter (fun p => isCsvChild dir p)

/-- The exceptions the pipeline can raise, by kind. -/
inductive PyErr where
  | fileNotFound
  | valueError
  | badZipFile
  | osError
  | transportError
deriving DecidableEq, Repr

instance exceptDecEq {ε α : Type} [DecidableEq ε] [DecidableEq α] :
    DecidableEq (Except ε α) := fun a b =>
  match a, b with
  | .error x, .error y =>
    if h : x = y then .isTrue (by rw [h]) else .isFalse (fun he => h (by cases he; rfl))
  | .ok x, .ok y =>
    if h : x = y then .isTrue (by rw [h]) else .isFalse (fun he => h (by cases he; rfl))
  | .error _, .ok _ => .isFalse (fun he => Except.noConfusion he)
  | .ok _, .error _ => .isFalse (fun he => Except.noConfusion he)

/-- `DataFrame.to_csv(path, index=index)` on a frame read from a CSV with
header `h` and data rows `r`: with `index=True` pandas prepends the row
index as an extra unnamed column; with `index=False` the table is written
back unchanged. -/
def toCsvFile (h : List String) (r : List (List String)) (index : Bool) : Content :=
  if index then
    .csv ("" :: h) (r.enum.map (fun e => toString e.1 :: e.2))
  else
    .csv h r

/-! ## Fetcher (`tapas/dataset.py`, `download_from_figshare`, lines 21-78)

`urllib.parse` and `requests` are external collaborators; we model the part
of their contracts the function relies on.  Query extraction follows
`urlsplit`: the fragment is everything after the first `#`, the query is
everything after the first `?` of what remains.  `parse_qs` splits the query
on `&`, splits each chunk at its first `=`, and with its default arguments
drops chunks with no `=` and chunks with an empty value (percent-decoding is
not modelled; the URLs concerned contain no escapes).
-/

/-- The query component of a URL, as `urlparse(url).query` computes it. -/
def queryOf (url : String) : String :=
  String.mk (dropThrough '?' (takeUntil '#' url.data))

/-- Model of `urllib.parse.parse_qs` (as an ordered association list; the
real dict groups values by key, and `[0]` below takes the first value of a
key, which is the value of the first pair with that key). -/
def parseQs (q : String) : List (String × String) :=
  (splitOnChar '&' q.data).filterMap (fun nv =>
    if nv.isEmpty then none
    else
      match splitKV nv with
      | none => none
      | some (n, v) => if v.isEmpty then none else some (String.mk n, String.mk v))

/-- Lines 36-48 of `dataset.py`: resolve the figshare file identifier from
the URL.  If the parsed query has a `file` key, its first value is the id
(numeric or not); otherwise `re.search(r"/files/(\d+)", url)` is tried on
the whole URL string; if that also fails the result is `none`
(a `ValueError` in the source). -/
def resolve_file_id (url : String) : Option String :=
  let query_params := parseQs (queryOf url)
  match query_params.find? (fun p => p.1 == "file") with
  | some p => some p.2
  | none => (findFilesId url.data).map String.mk

/-- Observable actions of the fetcher and the orchestrator. -/
inductive Event where
  | warnedFileExists
  | netRequest (fileId : String)
  | processingStarted
deriving DecidableEq, Repr

/-- `download_from_figshare(url, output_path)`: resolve the file id (a
`ValueError`, with no network request, when that fails — note the empty
event list), then issue the streaming GET (`net = none` models a transport
failure, surfaced by `raise_for_status`; `net = some d` a successful
response with body `d`), create the parent directories of the destination,
and write the body there. -/
def download_from_figshare (fs : FS) (url output_path : String)
    (net : Option FileData) : FS × List Event × Option PyErr :=
  match resolve_file_id url with
  | none => (fs, [], some .valueError)
  | some fid =>
    match net with
    | none => (fs, [.netRequest fid], some .transportError)
    | some d =>
      ((fs.mkdirParents (parentOf output_path)).writeFile output_path d,
        [.netRequest fid], none)

/-! ## Extractor (`tapas/dataset.py`, `extract_zip`, lines 96-129) -/

/-- Lines 112-116: is a zip member name excluded from extraction
(`__MACOSX` platform folders and `.DS_Store` files)? -/
def isExcluded (name : String) : Bool :=
  strStarts name "__MACOSX" || strEnds name ".DS_Store"

/-- The `file_list` of `extract_zip`: the archive members that survive the
`__MACOSX` / `.DS_Store` filter and get extracted. -/
def zipFileList (entries : List ZipEntry) : List ZipEntry :=
  entries.filter (fun e => !(isExcluded e.name))

/-- The path at which `zip_ref.extract(member, extract_to)` materialises a
member: the destination joined with the member's name (directory entries
lose their trailing slash). -/
def extractTarget (extract_to : String) (e : ZipEntry) : String :=
  if strEnds e.name "/" then joinP extract_to (dropTrailingSlash e.name)
  else joinP extract_to e.name

/-- `zip_ref.extract(member, extract_to)`: create the member's parent
directories, then create the directory (for a directory entry) or write the
file (for a file entry) at the target path. -/
def extractOne (fs : FS) (extract_to : String) (e : ZipEntry) : FS :=
  if strEnds e.name "/" then
    fs.mkdirParents (extractTarget extract_to e)
  else
    (fs.mkdirParents (parentOf (extractTarget extract_to e))).writeFile
      (extractTarget extract_to e) (.plain e.content)

/-- `extract_zip(zip_path, extract_to)` (lines 96-129): create the
destination, open the archive (`FileNotFoundError` if nothing is at
`zip_path`, `BadZipFile` if a non-zip file is, an `OSError` if a directory
is), extract every non-excluded member, then return `extract_to / "Data"`
if that directory exists afterwards and `extract_to` itself (with a
warning) otherwise. -/
def extract_zip (fs : FS) (zip_path extract_to : String) : FS × Except PyErr String :=
  let fs0 := fs.mkdirParents extract_to
  match fs0.fileAt zip_path with
  | some (.zipArchive entries) =>
    let fs1 := (zipFileList entries).foldl (fun a e => extractOne a extract_to e) fs0
    let data_dir := joinP extract_to "Data"
    if fs1.pathExists data_dir then (fs1, .ok data_dir)
    else (fs1, .ok extract_to)
  | some (.plain _) => (fs0, .error .badZipFile)
  | none =>
    if fs0.isDir zip_path then (fs0, .error .osError)
    else (fs0, .error .fileNotFound)

/-! ## Transformer (`tapas/dataset.py`, `process_dataset`, lines 132-218)

The function is embedded as its two processing steps (the source's
`# Step 2` and `# Step 3` blocks) composed after the existence check and
the extraction; step 4 of the source only logs and has no effect on the
state or the result.
-/

/-- The `prevalence_path` of line 159. -/
def prevalencePath (data_dir : String) : String :=
  joinP (joinP data_dir "1.Prevalence") "Prevalence_Sex_Age_Year_ICD.csv"

/-- The `adj_matrices_dir` of line 175. -/
def adjDir (data_dir : String) : String :=
  joinP data_dir "3.AdjacencyMatrices"

/-- Step 2 (lines 158-172): if the prevalence CSV exists, read it, create
the output directory and write the table back without its index, inside a
`try` that catches and merely logs any exception (so a `read_csv` failure,
or `mkdir` failing because `output_dir` is an existing regular file, leaves
the state unchanged). -/
def prevalenceStep (fs : FS) (data_dir output_dir : String) : FS :=
  let prevalence_path := prevalencePath data_dir
  if fs.pathExists prevalence_path then
    match fs.fileAt prevalence_path with
    | some (.plain (.csv h r)) =>
      if fs.isFile output_dir then fs
      else
        (fs.mkdirParents output_dir).writeFile (joinP output_dir "prevalence_data.csv")
          (.plain (toCsvFile h r false))
    | _ => fs
  else fs

/-- One row of the adjacency metadata: filename, shape, and path relative
to the extraction root (lines 189-193). -/
structure AdjRecord where
  filename : String
  shape : Nat × Nat
  file_path : String
deriving DecidableEq, Repr

/-- Lines 186-195, one iteration: try to `read_csv` the sampled file and
record its metadata; on failure (unreadable file, or a directory matched by
the glob) log a warning and record nothing. -/
def adjRecord (fs : FS) (data_dir p : String) : Option AdjRecord :=
  match fs.fileAt p with
  | some (.plain (.csv h r)) =>
    some { filename := baseName p, shape := (r.length, h.length),
           file_path := relativeTo data_dir p }
  | _ => none

/-- `str(df.shape)` for the shape column of the metadata table. -/
def shapeRepr (s : Nat × Nat) : String :=
  "(" ++ toString s.1 ++ ", " ++ toString s.2 ++ ")"

/-- The CSV row `pandas` writes for one metadata record. -/
def adjRow (r : AdjRecord) : List String :=
  [r.filename, shapeRepr r.shape, r.file_path]

/-- The metadata table written by `matrices_metadata.to_csv(..., index=False)`. -/
def metadataCsv (recs : List AdjRecord) : Content :=
  .csv ["filename", "shape", "file_path"] (recs.map adjRow)

/-- Step 3 (lines 174-204): if the adjacency directory exists, glob its
`*.csv` children; if any, sample the first five, collect a metadata record
per loadable file, and — if any record was collected — write the metadata
table into `output_dir`.  No `mkdir` happens in this step, so the write
raises an `OSError` (uncaught in the source) when `output_dir` is not an
existing directory. -/
def adjacencyStep (fs : FS) (data_dir output_dir : String) : FS × Option PyErr :=
  let adj_dir := adjDir data_dir
  if fs.pathExists adj_dir then
    let adj_files := fs.globCsv adj_dir
    if adj_files.isEmpty then (fs, none)
    else
      let processed_matrices := (adj_files.take 5).filterMap (adjRecord fs data_dir)
      if processed_matrices.isEmpty then (fs, none)
      else if fs.dirs.contains output_dir then
        (fs.writeFile (joinP output_dir "adjacency_matrices_metadata.csv")
          (.plain (metadataCsv processed_matrices)), none)
      else (fs, some .osError)
  else (fs, none)

/-- `process_dataset(input_path, output_dir, extract_to)` (lines 132-218):
raise `FileNotFoundError` immediately when the input archive is missing;
otherwise extract (propagating any extraction error), run the prevalence
step, then the adjacency step.  The second component is the exception that
escapes the call, if any; the first is the file-system state when the call
returns or raises. -/
def process_dataset (fs : FS) (input_path output_dir extract_to : String) :
    FS × Option PyErr :=
  if fs.pathExists input_path then
    match extract_zip fs input_path extract_to with
    | (fs1, .error e) => (fs1, some e)
    | (fs1, .ok data_dir) =>
      let fs2 := prevalenceStep fs1 data_dir output_dir
      adjacencyStep fs2 data_dir output_dir
  else (fs, some .fileNotFound)

/-! ## Orchestrator (`tapas/pipeline.py`, `run`, lines 24-86) -/

/-- `run(url, download_path, extract_to, output_dir, skip_download)`: when
not skipping, an already-present download file is kept with a warning and
no network request; otherwise the fetch runs (its errors are logged and
re-raised).  When skipping, a missing download file is a `FileNotFoundError`
raised before any processing.  Then `process_dataset` runs, its errors also
logged and re-raised.  The middle component lists the observable events in
order. -/
def run (fs : FS) (url download_path extract_to output_dir : String)
    (skip_download : Bool) (net : Option FileData) : FS × List Event × Option PyErr :=
  if skip_download then
    if fs.pathExists download_path then
      let r := process_dataset fs download_path output_dir extract_to
      (r.1, [.processingStarted], r.2)
    else (fs, [], some .fileNotFound)
  else
    if fs.pathExists download_path then
      let r := process_dataset fs download_path output_dir extract_to
      (r.1, [.warnedFileExists, .processingStarted], r.2)
    else
      match download_from_figshare fs url download_path net with
      | (fs1, evs, some e) => (fs1, evs, some e)
      | (fs1, evs, none) =>
        let r := process_dataset fs1 download_path output_dir extract_to
        (r.1, evs ++ [.processingStarted], r.2)

/-! ## Lemmas about the string scanners -/

theorem takeUntil_of_not_mem (c : Char) (xs : List Char) (h : c ∉ xs) :
    takeUntil c xs = xs := by
  induction xs with
  | nil => rfl
  | cons d ds ih =>
    have hd : ¬ (d = c) := fun he => h (he ▸ List.mem_cons_self d ds)
    rw [takeUntil, if_neg hd, ih (fun hm => h (List.mem_cons_of_mem d hm))]

theorem takeUntil_append_of_not_mem (c : Char) (xs ys : List Char) (h : c ∉ xs) :
    takeUntil c (xs ++ ys) = xs ++ takeUntil c ys := by
  induction xs with
  | nil => rfl
  | cons d ds ih =>
    have hd : ¬ (d = c) := fun he => h (he ▸ List.mem_cons_self d ds)
    rw [List.cons_append, takeUntil, if_neg hd, ih (fun hm => h (List.mem_cons_of_mem d hm))]
    rfl

theorem dropThrough_append_cons (c : Char) (xs ys : List Char) (h : c ∉ xs) :
    dropThrough c (xs ++ c :: ys) = ys := by
  induction xs with
  | nil => simp [dropThrough]
  | cons d ds ih =>
    have hd : ¬ (d = c) := fun he => h (he ▸ List.mem_cons_self d ds)
    rw [List.cons_append, dropThrough, if_neg hd, ih (fun hm => h (List.mem_cons_of_mem d hm))]

theorem splitOnChar_of_not_mem (c : Char) (xs : List Char) (h : c ∉ xs) :
    splitOnChar c xs = [xs] := by
  induction xs with
  | nil => rfl
  | cons d ds ih =>
    have hd : ¬ (d = c) := fun he => h (he ▸ List.mem_cons_self d ds)
    rw [splitOnChar, ih (fun hm => h (List.mem_cons_of_mem d hm))]
    simp [hd]

theorem splitKV_append (n v : List Char) (h : '=' ∉ n) :
    splitKV (n ++ '=' :: v) = some (n, v) := by
  induction n with
  | nil => simp [splitKV]
  | cons d ds ih =>
    have hd : ¬ (d = '=') := fun he => h (he ▸ List.mem_cons_self d ds)
    rw [List.cons_append, splitKV, if_neg hd, ih (fun hm => h (List.mem_cons_of_mem d hm))]

theorem stripLead_append (p s : List Char) : stripLead p (p ++ s) = some s := by
  induction p with
  | nil => rfl
  | cons a ps ih => rw [List.cons_append, stripLead, if_pos rfl, ih]

theorem takeDigits_append (ds bs : List Char) (h : ∀ c ∈ ds, c.isDigit = true)
    (hb : headNotDigit bs = true) : takeDigits (ds ++ bs) = ds := by
  induction ds with
  | nil =>
    cases bs with
    | nil => rfl
    | cons c cs =>
      rw [headNotDigit, Bool.not_eq_true'] at hb
      simp [takeDigits, hb]
  | cons c cs ih =>
    rw [List.cons_append, takeDigits, if_pos (h c (List.mem_cons_self c cs)),
      ih (fun d hm => h d (List.mem_cons_of_mem c hm))]

theorem findFilesId_append (xs ys : List Char) (h : noStraddleMatch xs ys = true) :
    findFilesId (xs ++ ys) = findFilesId ys := by
  induction xs with
  | nil => rfl
  | cons x xs ih =>
    rw [noStraddleMatch, Bool.and_eq_true] at h
    rw [List.cons_append, findFilesId]
    have hnone : matchAt (x :: (xs ++ ys)) = none := by
      have := h.1
      rwa [List.cons_append, Option.isNone_iff_eq_none] at this
    rw [hnone]
    exact ih h.2

theorem findFilesId_cons (c : Char) (cs ds : List Char)
    (h : matchAt (c :: cs) = some ds) : findFilesId (c :: cs) = some ds := by
  rw [findFilesId, h]

theorem matchAt_append (rest : List Char) (hne : (takeDigits rest).isEmpty = false) :
    matchAt ("/files/".data ++ rest) = some (takeDigits rest) := by
  rw [matchAt, stripLead_append]
  simp [hne]

theorem findFilesId_at_files (rest : List Char) (hne : (takeDigits rest).isEmpty = false) :
    findFilesId ("/files/".data ++ rest) = some (takeDigits rest) := by
  have h := matchAt_append rest hne
  have hd : "/files/".data ++ rest = '/' :: ("files/".data ++ rest) := rfl
  rw [hd] at h ⊢
  exact findFilesId_cons _ _ _ h

theorem queryOf_data (url : String) (xs q : List Char) (h : url.data = xs ++ '?' :: q)
    (hq : '?' ∉ xs) (hx : '#' ∉ xs) (h3 : '#' ∉ q) : queryOf url = String.mk q := by
  rw [queryOf, h]
  have hall : '#' ∉ xs ++ '?' :: q := by
    intro hm
    rcases List.mem_append.1 hm with hm | hm
    · exact hx hm
    · rcases List.mem_cons.1 hm with hm | hm
      · cases hm
      · exact h3 hm
  rw [takeUntil_of_not_mem _ _ hall, dropThrough_append_cons _ _ _ hq]

theorem parseQs_single (n v : List Char) (hn : '=' ∉ n) (han : '&' ∉ n)
    (hav : '&' ∉ v) (hne : v ≠ []) :
    parseQs (String.mk (n ++ '=' :: v)) = [(String.mk n, String.mk v)] := by
  have hall : '&' ∉ n ++ '=' :: v := by
    intro hm
    rcases List.mem_append.1 hm with hm | hm
    · exact han hm
    · rcases List.mem_cons.1 hm with hm | hm
      · cases hm
      · exact hav hm
  rw [parseQs]
  show ((splitOnChar '&' (n ++ '=' :: v)).filterMap _) = _
  rw [splitOnChar_of_not_mem _ _ hall]
  rw [List.filterMap]
  have hcons : (n ++ '=' :: v).isEmpty = false := by
    cases n <;> rfl
  simp only [hcons, Bool.false_eq_true, if_false, splitKV_append _ _ hn]
  have hv : v.isEmpty = false := by
    cases v with
    | nil => exact absurd rfl hne
    | cons a as => rfl
  simp [hv]

theorem ne_of_isDigit (c d : Char) (h : c.isDigit = true) (hd : d.isDigit = false) :
    c ≠ d := by
  intro he
  rw [he, hd] at h
  cases h

/-! ## Supporting lemmas for the fetcher claims -/

theorem resolve_of_query (url : String) (n v : List Char)
    (h : parseQs (queryOf url) = [(String.mk n, String.mk v)])
    (hn : (String.mk n == "file") = true) :
    resolve_file_id url = some (String.mk v) := by
  rw [resolve_file_id, h]
  simp [List.find?, hn]

theorem resolve_of_regex (url : String)
    (h : (parseQs (queryOf url)).find? (fun p => p.1 == "file") = none) :
    resolve_file_id url = (findFilesId url.data).map String.mk := by
  rw [resolve_file_id, h]

/-- C1: for a URL whose query string contains `?file=<id>`, the fetcher
resolves the identifier to `<id>`; for a URL containing a `/files/<id>`
segment and no `file` query parameter, it resolves to `<id>`; with neither,
`download_from_figshare` raises a `ValueError` having issued no network
request (the event list is empty). -/
theorem C1_file_id_resolution :
    (∀ base id : String, '?' ∉ base.data → '#' ∉ base.data →
      '#' ∉ id.data → '&' ∉ id.data → id.data ≠ [] →
      resolve_file_id (base ++ "?file=" ++ id) = some id) ∧
    (∀ a id b : String,
      (parseQs (queryOf (a ++ "/files/" ++ id ++ b))).find? (fun p => p.1 == "file") = none →
      (∀ c ∈ id.data, c.isDigit = true) → id.data ≠ [] →
      headNotDigit b.data = true →
      noStraddleMatch a.data ("/files/" ++ id ++ b).data = true →
      resolve_file_id (a ++ "/files/" ++ id ++ b) = some id) ∧
    (∀ (fs : FS) (url output_path : String) (net : Option FileData),
      (parseQs (queryOf url)).find? (fun p => p.1 == "file") = none →
      findFilesId url.data = none →
      download_from_figshare fs url output_path net = (fs, [], some .valueError)) := by
  refine ⟨?_, ?_, ?_⟩
  · intro base id h1 h2 h3 h4 h5
    have hq : queryOf (base ++ "?file=" ++ id) =
        String.mk (['f', 'i', 'l', 'e'] ++ '=' :: id.data) := by
      apply queryOf_data _ base.data
      · simp only [String.data_append, List.append_assoc]
        rfl
      · exact h1
      · exact h2
      · intro hm
        rcases List.mem_append.1 hm with hm | hm
        · exact absurd hm (by decide)
        · rcases List.mem_cons.1 hm with hm | hm
          · cases hm
          · exact h3 hm
    have hp := parseQs_single ['f', 'i', 'l', 'e'] id.data (by decide) (by decide) h4 h5
    rw [← hq] at hp
    exact resolve_of_query (base ++ "?file=" ++ id) _ _ hp (by decide)
  · intro a id b hfind hdig hne hhead hstrad
    rw [resolve_of_regex _ hfind]
    have hdata : (a ++ "/files/" ++ id ++ b).data =
        a.data ++ ("/files/".data ++ (id.data ++ b.data)) := by
      simp only [String.data_append, List.append_assoc]
    have hstrad2 : noStraddleMatch a.data ("/files/".data ++ (id.data ++ b.data)) = true := by
      have he : ("/files/" ++ id ++ b).data = "/files/".data ++ (id.data ++ b.data) := by
        simp only [String.data_append, List.append_assoc]
      rwa [he] at hstrad
    rw [hdata, findFilesId_append _ _ hstrad2]
    have htd : takeDigits (id.data ++ b.data) = id.data :=
      takeDigits_append _ _ hdig hhead
    have hie : (takeDigits (id.data ++ b.data)).isEmpty = false := by
      rw [htd]
      cases hi : id.data with
      | nil => exact absurd hi hne
      | cons c cs => rfl
    rw [findFilesId_at_files _ hie, htd]
    rfl
  · intro fs url output_path net hfind hregex
    have hres : resolve_file_id url = none := by
      rw [resolve_of_regex _ hfind, hregex]
      rfl
    rw [download_from_figshare, hres]

/-- Witness for C1: the three cases at concrete URLs. -/
theorem C1_file_id_resolution_witness :
    resolve_file_id ("https://figshare.com/articles/dataset/27102553" ++ "?file=" ++ "52015403")
      = some "52015403" ∧
    resolve_file_id ("https://ndownloader.figshare.com" ++ "/files/" ++ "99" ++ "/x")
      = some "99" ∧
    download_from_figshare ⟨[], []⟩ "https://example.com/nothing" "data.zip" none
      = (⟨[], []⟩, [], some .valueError) :=
  ⟨C1_file_id_resolution.1 "https://figshare.com/articles/dataset/27102553" "52015403"
      (by decide) (by decide) (by decide) (by decide) (by decide),
   C1_file_id_resolution.2.1 "https://ndownloader.figshare.com" "99" "/x"
      (by decide) (by decide) (by decide) (by decide) (by decide),
   C1_file_id_resolution.2.2 ⟨[], []⟩ "https://example.com/nothing" "data.zip" none
      (by decide) (by decide)⟩

/-- C9: a non-empty `file` query parameter wins over a `/files/<digits>`
path segment and need not be numeric; the path pattern is consulted when
the parameter has an empty value (in which case `parse_qs` drops it and
the regex — run on the whole URL — resolves the path segment). -/
theorem C9_query_param_precedence :
    (∀ a fid v : String, '?' ∉ a.data → '#' ∉ a.data →
      (∀ c ∈ fid.data, c.isDigit = true) → '#' ∉ v.data → '&' ∉ v.data → v.data ≠ [] →
      resolve_file_id (a ++ "/files/" ++ fid ++ "?file=" ++ v) = some v) ∧
    (∀ a fid : String, '?' ∉ a.data → '#' ∉ a.data →
      (∀ c ∈ fid.data, c.isDigit = true) → fid.data ≠ [] →
      noStraddleMatch a.data ("/files/" ++ fid ++ "?file=").data = true →
      resolve_file_id (a ++ "/files/" ++ fid ++ "?file=") = some fid) := by
  constructor
  · intro a fid v ha1 ha2 hdig hv1 hv2 hv3
    have hq : queryOf (a ++ "/files/" ++ fid ++ "?file=" ++ v) =
        String.mk (['f', 'i', 'l', 'e'] ++ '=' :: v.data) := by
      apply queryOf_data _ (a.data ++ ("/files/".data ++ fid.data))
      · simp only [String.data_append, List.append_assoc]
        rfl
      · intro hm
        rcases List.mem_append.1 hm with hm | hm
        · exact ha1 hm
        · rcases List.mem_append.1 hm with hm | hm
          · exact absurd hm (by decide)
          · exact absurd (hdig '?' hm) (by decide)
      · intro hm
        rcases List.mem_append.1 hm with hm | hm
        · exact ha2 hm
        · rcases List.mem_append.1 hm with hm | hm
          · exact absurd hm (by decide)
          · exact absurd (hdig '#' hm) (by decide)
      · intro hm
        rcases List.mem_append.1 hm with hm | hm
        · exact absurd hm (by decide)
        · rcases List.mem_cons.1 hm with hm | hm
          · cases hm
          · exact hv1 hm
    have hp := parseQs_single ['f', 'i', 'l', 'e'] v.data (by decide) (by decide) hv2 hv3
    rw [← hq] at hp
    exact resolve_of_query _ _ _ hp (by decide)
  · intro a fid ha1 ha2 hdig hne hstrad
    have hq : queryOf (a ++ "/files/" ++ fid ++ "?file=") =
        String.mk ['f', 'i', 'l', 'e', '='] := by
      apply queryOf_data _ (a.data ++ ("/files/".data ++ fid.data))
      · simp only [String.data_append, List.append_assoc]
      · intro hm
        rcases List.mem_append.1 hm with hm | hm
        · exact ha1 hm
        · rcases List.mem_append.1 hm with hm | hm
          · exact absurd hm (by decide)
          · exact absurd (hdig '?' hm) (by decide)
      · intro hm
        rcases List.mem_append.1 hm with hm | hm
        · exact ha2 hm
        · rcases List.mem_append.1 hm with hm | hm
          · exact absurd hm (by decide)
          · exact absurd (hdig '#' hm) (by decide)
      · intro hm
        exact absurd hm (by decide)
    have hfind : (parseQs (queryOf (a ++ "/files/" ++ fid ++ "?file="))).find?
        (fun p => p.1 == "file") = none := by
      rw [hq]
      decide
    rw [resolve_of_regex _ hfind]
    have hdata : (a ++ "/files/" ++ fid ++ "?file=").data =
        a.data ++ ("/files/".data ++ (fid.data ++ ['?', 'f', 'i', 'l', 'e', '='])) := by
      simp only [String.data_append, List.append_assoc]
    have hstrad2 : noStraddleMatch a.data
        ("/files/".data ++ (fid.data ++ ['?', 'f', 'i', 'l', 'e', '='])) = true := by
      have he : ("/files/" ++ fid ++ "?file=").data =
          "/files/".data ++ (fid.data ++ ['?', 'f', 'i', 'l', 'e', '=']) := by
        simp only [String.data_append, List.append_assoc]
      rwa [he] at hstrad
    rw [hdata, findFilesId_append _ _ hstrad2]
    have htd : takeDigits (fid.data ++ ['?', 'f', 'i', 'l', 'e', '=']) = fid.data :=
      takeDigits_append _ _ hdig (by decide)
    have hie : (takeDigits (fid.data ++ ['?', 'f', 'i', 'l', 'e', '='])).isEmpty = false := by
      rw [htd]
      cases hi : fid.data with
      | nil => exact absurd hi hne
      | cons c cs => rfl
    rw [findFilesId_at_files _ hie, htd]
    rfl

/-- Witness for C9: the non-numeric value `abc` wins over `/files/123`; with
an empty value the path segment `123` is used. -/
theorem C9_query_param_precedence_witness :
    resolve_file_id ("https://figshare.com/x" ++ "/files/" ++ "123" ++ "?file=" ++ "abc")
      = some "abc" ∧
    resolve_file_id ("https://figshare.com/x" ++ "/files/" ++ "123" ++ "?file=")
      = some "123" :=
  ⟨C9_query_param_precedence.1 "https://figshare.com/x" "123" "abc"
      (by decide) (by decide) (by decide) (by decide) (by decide) (by decide),
   C9_query_param_precedence.2 "https://figshare.com/x" "123"
      (by decide) (by decide) (by decide) (by decide) (by decide)⟩

/-! ## Lemmas about the file-system model -/

theorem FS.fileAt_mkdirParents (fs : FS) (q p : String) :
    (fs.mkdirParents q).fileAt p = fs.fileAt p := rfl

theorem FS.isDir_writeFile (fs : FS) (q : String) (d : FileData) (p : String) :
    (fs.writeFile q d).isDir p = fs.isDir p := rfl

theorem find?_filter_ne (files : List (String × FileData)) (p q : String) (h : ¬ (p = q)) :
    (files.filter (fun e => !(e.1 == q))).find? (fun e => e.1 == p) =
      files.find? (fun e => e.1 == p) := by
  induction files with
  | nil => rfl
  | cons x xs ih =>
    by_cases hx : x.1 = q
    · have h1 : (x.1 == q) = true := beq_iff_eq.2 hx
      have h2 : (x.1 == p) = false := by
        rw [beq_eq_false_iff_ne, hx]
        exact fun he => h he.symm
      simp [List.filter_cons, h1, h2, List.find?, ih]
    · have h1 : (x.1 == q) = false := beq_eq_false_iff_ne.2 hx
      cases hp : (x.1 == p) with
      | true => simp [List.filter_cons, h1, List.find?, hp]
      | false => simp [List.filter_cons, h1, List.find?, hp, ih]

theorem FS.fileAt_writeFile (fs : FS) (q : String) (d : FileData) (p : String) :
    (fs.writeFile q d).fileAt p = if p = q then some d else fs.fileAt p := by
  by_cases h : p = q
  · subst h
    simp [FS.writeFile, FS.fileAt, List.find?]
  · have h1 : (q == p) = false := beq_eq_false_iff_ne.2 (fun he => h he.symm)
    simp only [FS.writeFile, FS.fileAt, List.find?, h1, if_neg h]
    rw [find?_filter_ne _ _ _ h]

theorem FS.isDir_mkdirParents_mono (fs : FS) (q p : String) (h : fs.isDir p = true) :
    (fs.mkdirParents q).isDir p = true := by
  have hm : p ∈ fs.dirs := List.elem_iff.1 h
  exact List.elem_iff.2 (List.mem_append_left _ hm)

theorem FS.isDir_mkdirParents_self (fs : FS) (p : String) :
    (fs.mkdirParents p).isDir p = true := by
  apply List.elem_iff.2
  show p ∈ fs.dirs ++ ancestorPaths p
  apply List.mem_append_right
  rw [ancestorPaths]
  exact List.mem_append_right _ (List.mem_singleton.2 rfl)

theorem FS.pathExists_mkdirParents_mono (fs : FS) (q p : String)
    (h : fs.pathExists p = true) : (fs.mkdirParents q).pathExists p = true := by
  rw [FS.pathExists, Bool.or_eq_true] at h ⊢
  rcases h with h | h
  · exact Or.inl h
  · exact Or.inr (FS.isDir_mkdirParents_mono fs q p h)

theorem FS.isFile_writeFile_mono (fs : FS) (q : String) (d : FileData) (p : String)
    (h : fs.isFile p = true) : (fs.writeFile q d).isFile p = true := by
  rw [FS.isFile] at h ⊢
  rw [FS.fileAt_writeFile]
  by_cases hpq : p = q <;> simp [hpq, h]

theorem FS.pathExists_writeFile_mono (fs : FS) (q : String) (d : FileData) (p : String)
    (h : fs.pathExists p = true) : (fs.writeFile q d).pathExists p = true := by
  rw [FS.pathExists, Bool.or_eq_true] at h ⊢
  rcases h with h | h
  · exact Or.inl (FS.isFile_writeFile_mono fs q d p h)
  · exact Or.inr h

theorem pathExists_extractOne_mono (fs : FS) (dst : String) (e : ZipEntry) (p : String)
    (h : fs.pathExists p = true) : (extractOne fs dst e).pathExists p = true := by
  rw [extractOne]
  split
  · exact FS.pathExists_mkdirParents_mono _ _ _ h
  · exact FS.pathExists_writeFile_mono _ _ _ _ (FS.pathExists_mkdirParents_mono _ _ _ h)

theorem pathExists_extractOne_self (fs : FS) (dst : String) (e : ZipEntry) :
    (extractOne fs dst e).pathExists (extractTarget dst e) = true := by
  rw [extractOne]
  split
  · rw [FS.pathExists, Bool.or_eq_true]
    exact Or.inr (FS.isDir_mkdirParents_self _ _)
  · rw [FS.pathExists, Bool.or_eq_true]
    apply Or.inl
    rw [FS.isFile, FS.fileAt_writeFile]
    simp

theorem pathExists_foldl_mono (l : List ZipEntry) (dst : String) (fs : FS) (p : String)
    (h : fs.pathExists p = true) :
    (l.foldl (fun a e => extractOne a dst e) fs).pathExists p = true := by
  induction l generalizing fs with
  | nil => exact h
  | cons x xs ih => exact ih _ (pathExists_extractOne_mono _ _ _ _ h)

theorem pathExists_foldl_extract (l : List ZipEntry) (dst : String) (fs : FS) (e : ZipEntry)
    (he : e ∈ l) :
    (l.foldl (fun a x => extractOne a dst x) fs).pathExists (extractTarget dst e) = true := by
  induction l generalizing fs with
  | nil => cases he
  | cons x xs ih =>
    rw [List.foldl_cons]
    rcases List.mem_cons.1 he with rfl | hm
    · exact pathExists_foldl_mono xs dst _ _ (pathExists_extractOne_self fs dst e)
    · exact ih _ hm

theorem listStarts_nil (s : List Char) : listStarts s [] = true := by
  cases s <;> rfl

theorem listStarts_append (p s : List Char) : listStarts (p ++ s) p = true := by
  induction p with
  | nil => exact listStarts_nil s
  | cons a ps ih => simp [listStarts, ih]

theorem strEnds_append (a b : String) : strEnds (a ++ b) b = true := by
  rw [strEnds, String.data_append, List.reverse_append]
  exact listStarts_append _ _

theorem fst_ite_pair {α β : Type} (c : Prop) [Decidable c] (a : α) (b b' : β) :
    (if c then (a, b) else (a, b')).1 = a := by
  split <;> rfl

theorem extract_zip_of_zip (fs : FS) (zp dst : String) (entries : List ZipEntry)
    (h : fs.fileAt zp = some (.zipArchive entries)) :
    extract_zip fs zp dst =
      (if ((zipFileList entries).foldl (fun a e => extractOne a dst e)
            (fs.mkdirParents dst)).pathExists (joinP dst "Data")
       then ((zipFileList entries).foldl (fun a e => extractOne a dst e)
            (fs.mkdirParents dst), .ok (joinP dst "Data"))
       else ((zipFileList entries).foldl (fun a e => extractOne a dst e)
            (fs.mkdirParents dst), .ok dst)) := by
  rw [extract_zip, show (fs.mkdirParents dst).fileAt zp = some (.zipArchive entries) from h]

theorem extract_zip_of_none (fs : FS) (zp dst : String) (h : fs.fileAt zp = none) :
    extract_zip fs zp dst =
      (if (fs.mkdirParents dst).isDir zp then (fs.mkdirParents dst, .error .osError)
       else (fs.mkdirParents dst, .error .fileNotFound)) := by
  rw [extract_zip, show (fs.mkdirParents dst).fileAt zp = none from h]

theorem extract_zip_of_plain (fs : FS) (zp dst : String) (c : Content)
    (h : fs.fileAt zp = some (.plain c)) :
    extract_zip fs zp dst = (fs.mkdirParents dst, .error .badZipFile) := by
  rw [extract_zip, show (fs.mkdirParents dst).fileAt zp = some (.plain c) from h]

/-- C4: extraction filters out every member whose name starts with
`__MACOSX` or ends with `.DS_Store` (only members of `zipFileList` are ever
extracted, by construction of `extract_zip`), and every other member is
materialised under the destination at its own relative path. -/
theorem C4_extract_excludes_artifacts :
    ∀ (fs : FS) (zip_path extract_to : String) (entries : List ZipEntry),
      fs.fileAt zip_path = some (.zipArchive entries) →
      (∀ e ∈ entries, isExcluded e.name = true → e ∉ zipFileList entries) ∧
      (∀ e ∈ entries, isExcluded e.name = false →
        e ∈ zipFileList entries ∧
        (extract_zip fs zip_path extract_to).1.pathExists (extractTarget extract_to e) = true) := by
  intro fs zp dst entries h
  constructor
  · intro e _ hex hmem
    have hp := (List.mem_filter.1 hmem).2
    rw [hex] at hp
    simp at hp
  · intro e he hex
    have hmem : e ∈ zipFileList entries := by
      apply List.mem_filter.2
      refine ⟨he, ?_⟩
      rw [hex]
      rfl
    refine ⟨hmem, ?_⟩
    rw [extract_zip_of_zip fs zp dst entries h, fst_ite_pair]
    exact pathExists_foldl_extract _ _ _ _ hmem

/-- Witness for C4: a concrete archive with a `__MACOSX` member, a
`.DS_Store` member and a data member. -/
theorem C4_extract_excludes_artifacts_witness :
    ((⟨"__MACOSX/._a", Content.bad⟩ : ZipEntry) ∉ zipFileList
      [⟨"__MACOSX/._a", Content.bad⟩, ⟨"Data/.DS_Store", Content.bad⟩,
       ⟨"Data/a.csv", Content.csv ["x"] [["1"]]⟩]) ∧
    ((extract_zip ⟨[], [("raw.zip", FileData.zipArchive
        [⟨"__MACOSX/._a", Content.bad⟩, ⟨"Data/.DS_Store", Content.bad⟩,
         ⟨"Data/a.csv", Content.csv ["x"] [["1"]]⟩])]⟩ "raw.zip" "interim").1.pathExists
      (extractTarget "interim" ⟨"Data/a.csv", Content.csv ["x"] [["1"]]⟩) = true) :=
  ⟨(C4_extract_excludes_artifacts ⟨[], [("raw.zip", FileData.zipArchive
        [⟨"__MACOSX/._a", Content.bad⟩, ⟨"Data/.DS_Store", Content.bad⟩,
         ⟨"Data/a.csv", Content.csv ["x"] [["1"]]⟩])]⟩ "raw.zip" "interim"
      [⟨"__MACOSX/._a", Content.bad⟩, ⟨"Data/.DS_Store", Content.bad⟩,
       ⟨"Data/a.csv", Content.csv ["x"] [["1"]]⟩] (by decide)).1
      ⟨"__MACOSX/._a", Content.bad⟩ (by decide) (by decide),
   ((C4_extract_excludes_artifacts ⟨[], [("raw.zip", FileData.zipArchive
        [⟨"__MACOSX/._a", Content.bad⟩, ⟨"Data/.DS_Store", Content.bad⟩,
         ⟨"Data/a.csv", Content.csv ["x"] [["1"]]⟩])]⟩ "raw.zip" "interim"
      [⟨"__MACOSX/._a", Content.bad⟩, ⟨"Data/.DS_Store", Content.bad⟩,
       ⟨"Data/a.csv", Content.csv ["x"] [["1"]]⟩] (by decide)).2
      ⟨"Data/a.csv", Content.csv ["x"] [["1"]]⟩ (by decide) (by decide)).2⟩

/-- C8: whenever extraction succeeds, the returned path is
`extract_to / "Data"` — a path ending in the conventional folder name —
exactly when that directory exists afterwards, and the unchanged
destination directory otherwise. -/
theorem C8_extract_return_path :
    ∀ (fs : FS) (zip_path extract_to : String) (fs' : FS) (d : String),
      extract_zip fs zip_path extract_to = (fs', .ok d) →
      (fs'.pathExists (joinP extract_to "Data") = true →
        d = joinP extract_to "Data" ∧ strEnds d "Data" = true) ∧
      (fs'.pathExists (joinP extract_to "Data") = false → d = extract_to) := by
  intro fs zp dst fs' d heq
  cases hf : fs.fileAt zp with
  | none =>
    rw [extract_zip_of_none fs zp dst hf] at heq
    split at heq <;> (injection heq with h1 h2; injection h2)
  | some fd =>
    cases fd with
    | plain c =>
      rw [extract_zip_of_plain fs zp dst c hf] at heq
      injection heq with h1 h2
      injection h2
    | zipArchive entries =>
      rw [extract_zip_of_zip fs zp dst entries hf] at heq
      split at heq
      · rename_i hc
        injection heq with h1 h2
        injection h2 with h3
        subst h1
        subst h3
        constructor
        · intro _
          exact ⟨rfl, strEnds_append _ _⟩
        · intro hfalse
          rw [hc] at hfalse
          cases hfalse
      · rename_i hc
        injection heq with h1 h2
        injection h2 with h3
        subst h1
        subst h3
        constructor
        · intro htrue
          rw [htrue] at hc
          simp at hc
        · intro _
          rfl

/-- Witness for C8: a zip containing a `Data` folder yields the `Data`
path; the target-path equality and suffix facts are discharged concretely. -/
theorem C8_extract_return_path_witness :
    "interim/Data" = joinP "interim" "Data" ∧ strEnds "interim/Data" "Data" = true :=
  (C8_extract_return_path ⟨[], [("raw.zip", FileData.zipArchive
      [⟨"Data/", Content.bad⟩])]⟩ "raw.zip" "interim"
      (extract_zip ⟨[], [("raw.zip", FileData.zipArchive [⟨"Data/", Content.bad⟩])]⟩
        "raw.zip" "interim").1 "interim/Data" (by decide)).1 (by decide)

/-! ## Lemmas about the transformer -/

theorem FS.pathExists_of_fileAt (fs : FS) (p : String) (d : FileData)
    (h : fs.fileAt p = some d) : fs.pathExists p = true := by
  rw [FS.pathExists, FS.isFile, h]
  rfl

theorem process_dataset_of_missing (fs : FS) (ip od et : String)
    (hex : fs.pathExists ip = false) :
    process_dataset fs ip od et = (fs, some .fileNotFound) := by
  rw [process_dataset, if_neg]
  rw [hex]
  simp

theorem process_dataset_of_extract_err (fs : FS) (ip od et : String) (fs1 : FS) (e : PyErr)
    (hex : fs.pathExists ip = true) (hzip : extract_zip fs ip et = (fs1, .error e)) :
    process_dataset fs ip od et = (fs1, some e) := by
  rw [process_dataset, if_pos hex, hzip]

theorem process_dataset_of_ok (fs : FS) (ip od et : String) (fs1 : FS) (dd : String)
    (hex : fs.pathExists ip = true) (hzip : extract_zip fs ip et = (fs1, .ok dd)) :
    process_dataset fs ip od et = adjacencyStep (prevalenceStep fs1 dd od) dd od := by
  rw [process_dataset, if_pos hex, hzip]

theorem prevalenceStep_of_absent (fs : FS) (dd od : String)
    (h : fs.pathExists (prevalencePath dd) = false) :
    prevalenceStep fs dd od = fs := by
  rw [prevalenceStep, if_neg]
  rw [h]
  simp

theorem prevalenceStep_of_csv (fs : FS) (dd od : String) (hdr : List String)
    (rows : List (List String))
    (hf : fs.fileAt (prevalencePath dd) = some (.plain (.csv hdr rows)))
    (hod : fs.isFile od = false) :
    prevalenceStep fs dd od =
      (fs.mkdirParents od).writeFile (joinP od "prevalence_data.csv")
        (.plain (.csv hdr rows)) := by
  rw [prevalenceStep, if_pos (FS.pathExists_of_fileAt fs _ _ hf), hf]
  simp only [hod, Bool.false_eq_true, if_false]
  rfl

theorem adjacencyStep_of_nodir (fs : FS) (dd od : String)
    (h : fs.pathExists (adjDir dd) = false) :
    adjacencyStep fs dd od = (fs, none) := by
  rw [adjacencyStep, if_neg]
  rw [h]
  simp

theorem adjacencyStep_of_noglob (fs : FS) (dd od : String)
    (hdir : fs.pathExists (adjDir dd) = true)
    (hempty : (fs.globCsv (adjDir dd)).isEmpty = true) :
    adjacencyStep fs dd od = (fs, none) := by
  rw [adjacencyStep, if_pos hdir]
  simp only [hempty, if_true]

theorem adjacencyStep_of_norecs (fs : FS) (dd od : String)
    (hdir : fs.pathExists (adjDir dd) = true)
    (hrecs : (((fs.globCsv (adjDir dd)).take 5).filterMap (adjRecord fs dd)).isEmpty = true) :
    adjacencyStep fs dd od = (fs, none) := by
  rw [adjacencyStep, if_pos hdir]
  cases hg : (fs.globCsv (adjDir dd)).isEmpty with
  | true => simp only [hg, if_true]
  | false =>
    simp only [hg, Bool.false_eq_true, if_false, hrecs, if_true]

theorem adjacencyStep_of_write (fs : FS) (dd od : String)
    (hdir : fs.pathExists (adjDir dd) = true)
    (hne : (fs.globCsv (adjDir dd)).isEmpty = false)
    (hrecs : (((fs.globCsv (adjDir dd)).take 5).filterMap (adjRecord fs dd)).isEmpty = false)
    (hod : fs.dirs.contains od = true) :
    adjacencyStep fs dd od =
      (fs.writeFile (joinP od "adjacency_matrices_metadata.csv")
        (.plain (metadataCsv (((fs.globCsv (adjDir dd)).take 5).filterMap (adjRecord fs dd)))),
       none) := by
  rw [adjacencyStep, if_pos hdir]
  simp only [hne, Bool.false_eq_true, if_false, hrecs, hod, if_true]

theorem adjacencyStep_of_noodir (fs : FS) (dd od : String)
    (hdir : fs.pathExists (adjDir dd) = true)
    (hne : (fs.globCsv (adjDir dd)).isEmpty = false)
    (hrecs : (((fs.globCsv (adjDir dd)).take 5).filterMap (adjRecord fs dd)).isEmpty = false)
    (hod : fs.dirs.contains od = false) :
    adjacencyStep fs dd od = (fs, some .osError) := by
  rw [adjacencyStep, if_pos hdir]
  simp only [hne, Bool.false_eq_true, if_false, hrecs, hod, if_true]

theorem joinP_right_inj (od a b : String) (h : joinP od a = joinP od b) : a = b := by
  have hd := congrArg String.data h
  rw [joinP, joinP, String.data_append, String.data_append] at hd
  exact String.ext (List.append_cancel_left hd)

theorem adjacencyStep_fileAt_other (fs : FS) (dd od p : String)
    (hne : p ≠ joinP od "adjacency_matrices_metadata.csv") :
    (adjacencyStep fs dd od).1.fileAt p = fs.fileAt p := by
  rw [adjacencyStep]
  split
  · simp only
    split
    · rfl
    · split
      · rfl
      · split
        · simp [FS.fileAt_writeFile, hne]
        · rfl
  · rfl

theorem length_filterMap_of_isSome {α β : Type} (l : List α) (f : α → Option β)
    (h : ∀ x ∈ l, (f x).isSome = true) : (l.filterMap f).length = l.length := by
  induction l with
  | nil => rfl
  | cons a as ih =>
    have ha := h a (List.mem_cons_self a as)
    cases hfa : f a with
    | none => rw [hfa] at ha; cases ha
    | some b =>
      rw [List.filterMap_cons, hfa]
      simp only [List.length_cons]
      rw [ih (fun x hx => h x (List.mem_cons_of_mem a hx))]

theorem filterMap_take5_nonempty {α β : Type} (l : List α) (f : α → Option β)
    (hl : l.isEmpty = false) (hf : ∀ p ∈ l, (f p).isSome = true) :
    ((l.take 5).filterMap f).isEmpty = false := by
  cases l with
  | nil => cases hl
  | cons a as =>
    have ha := hf a (List.mem_cons_self a as)
    rw [show (5 : Nat) = 4 + 1 from rfl, List.take_succ_cons]
    cases hfa : f a with
    | none => rw [hfa] at ha; cases ha
    | some b =>
      rw [List.filterMap_cons, hfa]
      rfl

/-- Counterexample to C2 as stated: the input archive exists, yet a fatal
error escapes `process_dataset` — it extracts an adjacency CSV and then
fails with an `OSError` writing the metadata table, because the output
directory does not exist (it is only created in the prevalence branch). -/
theorem C2_counterexample :
    (FS.mk [] [("raw.zip", FileData.zipArchive
        [⟨"Data/3.AdjacencyMatrices/a.csv", Content.csv ["x"] [["1"]]⟩])]).pathExists
      "raw.zip" = true ∧
    (process_dataset (FS.mk [] [("raw.zip", FileData.zipArchive
        [⟨"Data/3.AdjacencyMatrices/a.csv", Content.csv ["x"] [["1"]]⟩])])
      "raw.zip" "out" "interim").2 = some PyErr.osError := by
  constructor
  · decide
  · decide

/-- C2 (amended): `process_dataset` raises a `FileNotFoundError`
immediately — leaving the file system untouched, so no output file is
produced — whenever the input archive path does not exist; when the input
exists, other fatal errors can still escape (an invalid archive, or the
adjacency-metadata write against a missing output directory). -/
theorem C2_missing_input_fatal :
    ∀ (fs : FS) (ip od et : String), fs.pathExists ip = false →
      process_dataset fs ip od et = (fs, some .fileNotFound) := by
  intro fs ip od et h
  exact process_dataset_of_missing fs ip od et h

/-- Witness for the amended C2 at a concrete empty file system. -/
theorem C2_missing_input_fatal_witness :
    process_dataset (FS.mk [] []) "raw.zip" "out" "interim" =
      (FS.mk [] [], some .fileNotFound) :=
  C2_missing_input_fatal (FS.mk [] []) "raw.zip" "out" "interim" (by decide)

/-- C10: the output directory is created only by the prevalence branch, so
a run with no prevalence file, at least one readable adjacency CSV and a
nonexistent output directory raises (`OSError`) at the metadata write and
leaves the file system as extraction left it — no metadata file is
produced. -/
theorem C10_metadata_write_without_output_dir :
    ∀ (fs : FS) (ip od et : String) (fs1 : FS) (dd : String),
      fs.pathExists ip = true →
      extract_zip fs ip et = (fs1, .ok dd) →
      fs1.pathExists (prevalencePath dd) = false →
      fs1.pathExists (adjDir dd) = true →
      (fs1.globCsv (adjDir dd)).isEmpty = false →
      (((fs1.globCsv (adjDir dd)).take 5).filterMap (adjRecord fs1 dd)).isEmpty = false →
      fs1.dirs.contains od = false →
      process_dataset fs ip od et = (fs1, some .osError) := by
  intro fs ip od et fs1 dd hex hzip hprev hadj hglob hrecs hod
  rw [process_dataset_of_ok fs ip od et fs1 dd hex hzip,
    prevalenceStep_of_absent fs1 dd od hprev]
  exact adjacencyStep_of_noodir fs1 dd od hadj hglob hrecs hod

/-- Witness for C10 at a concrete archive holding one adjacency CSV. -/
theorem C10_metadata_write_without_output_dir_witness :
    process_dataset (FS.mk [] [("z.zip", FileData.zipArchive
        [⟨"Data/3.AdjacencyMatrices/m.csv", Content.csv ["a", "b"] [["1", "2"]]⟩])])
      "z.zip" "out" "interim" =
      ((extract_zip (FS.mk [] [("z.zip", FileData.zipArchive
        [⟨"Data/3.AdjacencyMatrices/m.csv", Content.csv ["a", "b"] [["1", "2"]]⟩])])
        "z.zip" "interim").1, some .osError) :=
  C10_metadata_write_without_output_dir
    (FS.mk [] [("z.zip", FileData.zipArchive
      [⟨"Data/3.AdjacencyMatrices/m.csv", Content.csv ["a", "b"] [["1", "2"]]⟩])])
    "z.zip" "out" "interim"
    (extract_zip (FS.mk [] [("z.zip", FileData.zipArchive
      [⟨"Data/3.AdjacencyMatrices/m.csv", Content.csv ["a", "b"] [["1", "2"]]⟩])])
      "z.zip" "interim").1
    "interim/Data" (by decide) (by decide) (by decide) (by decide) (by decide)
    (by decide) (by decide)

/-- C5: when the extracted tree holds a prevalence CSV with header `hdr`
(M = `hdr.length` columns) and data rows `rows` (N = `rows.length`),
`process_dataset` writes `prevalence_data.csv` holding exactly the same
header and data rows — N data rows, M columns, and (because `to_csv` is
called with `index=False`, i.e. `toCsvFile ... false`) no index column. -/
theorem C5_prevalence_round_trip :
    ∀ (fs : FS) (ip od et : String) (fs1 : FS) (dd : String)
      (hdr : List String) (rows : List (List String)),
      fs.pathExists ip = true →
      extract_zip fs ip et = (fs1, .ok dd) →
      fs1.fileAt (prevalencePath dd) = some (.plain (.csv hdr rows)) →
      fs1.isFile od = false →
      (process_dataset fs ip od et).1.fileAt (joinP od "prevalence_data.csv")
        = some (.plain (.csv hdr rows)) := by
  intro fs ip od et fs1 dd hdr rows hex hzip hprev hod
  rw [process_dataset_of_ok fs ip od et fs1 dd hex hzip,
    prevalenceStep_of_csv fs1 dd od hdr rows hprev hod]
  rw [adjacencyStep_fileAt_other]
  · rw [FS.fileAt_writeFile]
    simp
  · intro he
    exact (by decide : ¬ ("prevalence_data.csv" = "adjacency_matrices_metadata.csv"))
      (joinP_right_inj od _ _ he)

/-- Witness for C5: a two-row, two-column prevalence table survives the
round trip unchanged. -/
theorem C5_prevalence_round_trip_witness :
    (process_dataset (FS.mk [] [("z.zip", FileData.zipArchive
        [⟨"Data/1.Prevalence/Prevalence_Sex_Age_Year_ICD.csv",
          Content.csv ["sex", "age"] [["f", "1"], ["m", "2"]]⟩])])
      "z.zip" "out" "interim").1.fileAt (joinP "out" "prevalence_data.csv")
      = some (.plain (.csv ["sex", "age"] [["f", "1"], ["m", "2"]])) :=
  C5_prevalence_round_trip
    (FS.mk [] [("z.zip", FileData.zipArchive
      [⟨"Data/1.Prevalence/Prevalence_Sex_Age_Year_ICD.csv",
        Content.csv ["sex", "age"] [["f", "1"], ["m", "2"]]⟩])])
    "z.zip" "out" "interim"
    (extract_zip (FS.mk [] [("z.zip", FileData.zipArchive
      [⟨"Data/1.Prevalence/Prevalence_Sex_Age_Year_ICD.csv",
        Content.csv ["sex", "age"] [["f", "1"], ["m", "2"]]⟩])]) "z.zip" "interim").1
    "interim/Data" ["sex", "age"] [["f", "1"], ["m", "2"]]
    (by decide) (by decide) (by decide) (by decide)

/-- Decidable check that `pandas.read_csv` would succeed on the file at
`p`: a plain, well-formed CSV file exists there. -/
def isReadableCsv (fs : FS) (p : String) : Bool :=
  match fs.fileAt p with
  | some (.plain (.csv _ _)) => true
  | _ => false

theorem adjRecord_isSome_of_readable (fs : FS) (dd p : String)
    (h : isReadableCsv fs p = true) : (adjRecord fs dd p).isSome = true := by
  rw [isReadableCsv] at h
  rw [adjRecord]
  cases hf : fs.fileAt p with
  | none => rw [hf] at h; cases h
  | some fd =>
    cases fd with
    | plain c =>
      cases c with
      | csv hdr rows => rfl
      | bad => rw [hf] at h; cases h
    | zipArchive es => rw [hf] at h; cases h

/-- C3: when every `*.csv` child of the adjacency directory is a readable
CSV and the output directory exists, the metadata table written by
`process_dataset` has exactly `min 5 n` records for `n` globbed files —
five when `n > 5`, `n` when `n < 5` — and each sampled readable file
contributes the record holding its own (rows, columns) shape and its path
relative to the extraction root. -/
theorem C3_adjacency_metadata_sample :
    ∀ (fs : FS) (ip od et : String) (fs1 : FS) (dd : String) (fs2 : FS),
      fs.pathExists ip = true →
      extract_zip fs ip et = (fs1, .ok dd) →
      fs2 = prevalenceStep fs1 dd od →
      fs2.pathExists (adjDir dd) = true →
      (∀ p ∈ fs2.globCsv (adjDir dd), isReadableCsv fs2 p = true) →
      (fs2.globCsv (adjDir dd)).isEmpty = false →
      fs2.dirs.contains od = true →
      ∃ recs : List AdjRecord,
        recs = ((fs2.globCsv (adjDir dd)).take 5).filterMap (adjRecord fs2 dd) ∧
        (process_dataset fs ip od et).1.fileAt (joinP od "adjacency_matrices_metadata.csv")
          = some (.plain (metadataCsv recs)) ∧
        recs.length = min 5 (fs2.globCsv (adjDir dd)).length ∧
        (∀ p ∈ (fs2.globCsv (adjDir dd)).take 5, ∀ hdr rows,
          fs2.fileAt p = some (.plain (.csv hdr rows)) →
          (⟨baseName p, (rows.length, hdr.length), relativeTo dd p⟩ : AdjRecord) ∈ recs) := by
  intro fs ip od et fs1 dd fs2 hex hzip hfs2 hadj hread hglob hod
  subst hfs2
  have hsome : ∀ p ∈ (prevalenceStep fs1 dd od).globCsv (adjDir dd),
      (adjRecord (prevalenceStep fs1 dd od) dd p).isSome = true := by
    intro p hp
    exact adjRecord_isSome_of_readable _ dd p (hread p hp)
  have hrecs := filterMap_take5_nonempty _ _ hglob hsome
  refine ⟨_, rfl, ?_, ?_, ?_⟩
  · rw [process_dataset_of_ok fs ip od et fs1 dd hex hzip,
      adjacencyStep_of_write _ dd od hadj hglob hrecs hod]
    rw [FS.fileAt_writeFile]
    simp
  · rw [length_filterMap_of_isSome _ _ (fun x hx => hsome x (List.mem_of_mem_take hx))]
    exact List.length_take 5 _
  · intro p hp hdr rows hf
    exact List.mem_filterMap.2 ⟨p, hp, by rw [adjRecord, hf]⟩

/-- Witness for C3: six readable adjacency CSVs yield exactly five records. -/
theorem C3_adjacency_metadata_sample_witness :
    ∃ recs : List AdjRecord,
      recs = (((prevalenceStep (extract_zip (FS.mk ["out"] [("z.zip", FileData.zipArchive
          [⟨"Data/3.AdjacencyMatrices/m1.csv", Content.csv ["a"] [["1"]]⟩,
           ⟨"Data/3.AdjacencyMatrices/m2.csv", Content.csv ["a"] [["2"]]⟩,
           ⟨"Data/3.AdjacencyMatrices/m3.csv", Content.csv ["a"] [["3"]]⟩,
           ⟨"Data/3.AdjacencyMatrices/m4.csv", Content.csv ["a"] [["4"]]⟩,
           ⟨"Data/3.AdjacencyMatrices/m5.csv", Content.csv ["a"] [["5"]]⟩,
           ⟨"Data/3.AdjacencyMatrices/m6.csv", Content.csv ["a"] [["6"]]⟩])])
          "z.zip" "interim").1 "interim/Data" "out").globCsv
            (adjDir "interim/Data")).take 5).filterMap
        (adjRecord (prevalenceStep (extract_zip (FS.mk ["out"] [("z.zip", FileData.zipArchive
          [⟨"Data/3.AdjacencyMatrices/m1.csv", Content.csv ["a"] [["1"]]⟩,
           ⟨"Data/3.AdjacencyMatrices/m2.csv", Content.csv ["a"] [["2"]]⟩,
           ⟨"Data/3.AdjacencyMatrices/m3.csv", Content.csv ["a"] [["3"]]⟩,
           ⟨"Data/3.AdjacencyMatrices/m4.csv", Content.csv ["a"] [["4"]]⟩,
           ⟨"Data/3.AdjacencyMatrices/m5.csv", Content.csv ["a"] [["5"]]⟩,
           ⟨"Data/3.AdjacencyMatrices/m6.csv", Content.csv ["a"] [["6"]]⟩])])
          "z.zip" "interim").1 "interim/Data" "out") "interim/Data") ∧
      (process_dataset (FS.mk ["out"] [("z.zip", FileData.zipArchive
          [⟨"Data/3.AdjacencyMatrices/m1.csv", Content.csv ["a"] [["1"]]⟩,
           ⟨"Data/3.AdjacencyMatrices/m2.csv", Content.csv ["a"] [["2"]]⟩,
           ⟨"Data/3.AdjacencyMatrices/m3.csv", Content.csv ["a"] [["3"]]⟩,
           ⟨"Data/3.AdjacencyMatrices/m4.csv", Content.csv ["a"] [["4"]]⟩,
           ⟨"Data/3.AdjacencyMatrices/m5.csv", Content.csv ["a"] [["5"]]⟩,
           ⟨"Data/3.AdjacencyMatrices/m6.csv", Content.csv ["a"] [["6"]]⟩])])
        "z.zip" "out" "interim").1.fileAt (joinP "out" "adjacency_matrices_metadata.csv")
        = some (.plain (metadataCsv recs)) ∧
      recs.length = min 5 ((prevalenceStep (extract_zip (FS.mk ["out"] [("z.zip",
          FileData.zipArchive
          [⟨"Data/3.AdjacencyMatrices/m1.csv", Content.csv ["a"] [["1"]]⟩,
           ⟨"Data/3.AdjacencyMatrices/m2.csv", Content.csv ["a"] [["2"]]⟩,
           ⟨"Data/3.AdjacencyMatrices/m3.csv", Content.csv ["a"] [["3"]]⟩,
           ⟨"Data/3.AdjacencyMatrices/m4.csv", Content.csv ["a"] [["4"]]⟩,
           ⟨"Data/3.AdjacencyMatrices/m5.csv", Content.csv ["a"] [["5"]]⟩,
           ⟨"Data/3.AdjacencyMatrices/m6.csv", Content.csv ["a"] [["6"]]⟩])])
          "z.zip" "interim").1 "interim/Data" "out").globCsv
            (adjDir "interim/Data")).length ∧
      (∀ p ∈ ((prevalenceStep (extract_zip (FS.mk ["out"] [("z.zip", FileData.zipArchive
          [⟨"Data/3.AdjacencyMatrices/m1.csv", Content.csv ["a"] [["1"]]⟩,
           ⟨"Data/3.AdjacencyMatrices/m2.csv", Content.csv ["a"] [["2"]]⟩,
           ⟨"Data/3.AdjacencyMatrices/m3.csv", Content.csv ["a"] [["3"]]⟩,
           ⟨"Data/3.AdjacencyMatrices/m4.csv", Content.csv ["a"] [["4"]]⟩,
           ⟨"Data/3.AdjacencyMatrices/m5.csv", Content.csv ["a"] [["5"]]⟩,
           ⟨"Data/3.AdjacencyMatrices/m6.csv", Content.csv ["a"] [["6"]]⟩])])
          "z.zip" "interim").1 "interim/Data" "out").globCsv
            (adjDir "interim/Data")).take 5, ∀ hdr rows,
        (prevalenceStep (extract_zip (FS.mk ["out"] [("z.zip", FileData.zipArchive
          [⟨"Data/3.AdjacencyMatrices/m1.csv", Content.csv ["a"] [["1"]]⟩,
           ⟨"Data/3.AdjacencyMatrices/m2.csv", Content.csv ["a"] [["2"]]⟩,
           ⟨"Data/3.AdjacencyMatrices/m3.csv", Content.csv ["a"] [["3"]]⟩,
           ⟨"Data/3.AdjacencyMatrices/m4.csv", Content.csv ["a"] [["4"]]⟩,
           ⟨"Data/3.AdjacencyMatrices/m5.csv", Content.csv ["a"] [["5"]]⟩,
           ⟨"Data/3.AdjacencyMatrices/m6.csv", Content.csv ["a"] [["6"]]⟩])])
          "z.zip" "interim").1 "interim/Data" "out").fileAt p
          = some (.plain (.csv hdr rows)) →
        (⟨baseName p, (rows.length, hdr.length), relativeTo "interim/Data" p⟩ : AdjRecord)
          ∈ recs) :=
  C3_adjacency_metadata_sample
    (FS.mk ["out"] [("z.zip", FileData.zipArchive
      [⟨"Data/3.AdjacencyMatrices/m1.csv", Content.csv ["a"] [["1"]]⟩,
       ⟨"Data/3.AdjacencyMatrices/m2.csv", Content.csv ["a"] [["2"]]⟩,
       ⟨"Data/3.AdjacencyMatrices/m3.csv", Content.csv ["a"] [["3"]]⟩,
       ⟨"Data/3.AdjacencyMatrices/m4.csv", Content.csv ["a"] [["4"]]⟩,
       ⟨"Data/3.AdjacencyMatrices/m5.csv", Content.csv ["a"] [["5"]]⟩,
       ⟨"Data/3.AdjacencyMatrices/m6.csv", Content.csv ["a"] [["6"]]⟩])])
    "z.zip" "out" "interim"
    (extract_zip (FS.mk ["out"] [("z.zip", FileData.zipArchive
      [⟨"Data/3.AdjacencyMatrices/m1.csv", Content.csv ["a"] [["1"]]⟩,
       ⟨"Data/3.AdjacencyMatrices/m2.csv", Content.csv ["a"] [["2"]]⟩,
       ⟨"Data/3.AdjacencyMatrices/m3.csv", Content.csv ["a"] [["3"]]⟩,
       ⟨"Data/3.AdjacencyMatrices/m4.csv", Content.csv ["a"] [["4"]]⟩,
       ⟨"Data/3.AdjacencyMatrices/m5.csv", Content.csv ["a"] [["5"]]⟩,
       ⟨"Data/3.AdjacencyMatrices/m6.csv", Content.csv ["a"] [["6"]]⟩])])
      "z.zip" "interim").1
    "interim/Data"
    (prevalenceStep (extract_zip (FS.mk ["out"] [("z.zip", FileData.zipArchive
      [⟨"Data/3.AdjacencyMatrices/m1.csv", Content.csv ["a"] [["1"]]⟩,
       ⟨"Data/3.AdjacencyMatrices/m2.csv", Content.csv ["a"] [["2"]]⟩,
       ⟨"Data/3.AdjacencyMatrices/m3.csv", Content.csv ["a"] [["3"]]⟩,
       ⟨"Data/3.AdjacencyMatrices/m4.csv", Content.csv ["a"] [["4"]]⟩,
       ⟨"Data/3.AdjacencyMatrices/m5.csv", Content.csv ["a"] [["5"]]⟩,
       ⟨"Data/3.AdjacencyMatrices/m6.csv", Content.csv ["a"] [["6"]]⟩])])
      "z.zip" "interim").1 "interim/Data" "out")
    (by decide) (by decide) rfl (by decide) (by decide) (by decide) (by decide)

/-- C7: a sampled adjacency file on which the load fails contributes no
record (it is skipped), no exception escapes `process_dataset` on its
account (the error component is `none`), and every readable sampled file
still contributes its record — processing continues with the rest. -/
theorem C7_per_file_load_failure_tolerated :
    ∀ (fs : FS) (ip od et : String) (fs1 : FS) (dd : String) (fs2 : FS) (p : String),
      fs.pathExists ip = true →
      extract_zip fs ip et = (fs1, .ok dd) →
      fs2 = prevalenceStep fs1 dd od →
      fs2.pathExists (adjDir dd) = true →
      fs2.dirs.contains od = true →
      p ∈ (fs2.globCsv (adjDir dd)).take 5 →
      fs2.fileAt p = some (.plain .bad) →
      adjRecord fs2 dd p = none ∧
      (process_dataset fs ip od et).2 = none ∧
      (∀ q ∈ (fs2.globCsv (adjDir dd)).take 5, ∀ hdr rows,
        fs2.fileAt q = some (.plain (.csv hdr rows)) →
        (⟨baseName q, (rows.length, hdr.length), relativeTo dd q⟩ : AdjRecord) ∈
          ((fs2.globCsv (adjDir dd)).take 5).filterMap (adjRecord fs2 dd)) := by
  intro fs ip od et fs1 dd fs2 p hex hzip hfs2 hadj hod hmem hbad
  subst hfs2
  refine ⟨by rw [adjRecord, hbad], ?_, ?_⟩
  · rw [process_dataset_of_ok fs ip od et fs1 dd hex hzip]
    have hglob : ((prevalenceStep fs1 dd od).globCsv (adjDir dd)).isEmpty = false := by
      cases hG : (prevalenceStep fs1 dd od).globCsv (adjDir dd) with
      | nil =>
        rw [hG] at hmem
        cases hmem
      | cons a as => rfl
    cases hrecs : ((((prevalenceStep fs1 dd od).globCsv (adjDir dd)).take 5).filterMap
        (adjRecord (prevalenceStep fs1 dd od) dd)).isEmpty with
    | true => rw [adjacencyStep_of_norecs _ dd od hadj hrecs]
    | false => rw [adjacencyStep_of_write _ dd od hadj hglob hrecs hod]
  · intro q hq hdr rows hf
    exact List.mem_filterMap.2 ⟨q, hq, by rw [adjRecord, hf]⟩

/-- Witness for C7: one unreadable and one readable adjacency CSV; the run
ends without error and the readable file's record is collected. -/
theorem C7_per_file_load_failure_tolerated_witness :
    adjRecord (prevalenceStep (extract_zip (FS.mk ["out"] [("z.zip", FileData.zipArchive
        [⟨"Data/3.AdjacencyMatrices/broken.csv", Content.bad⟩,
         ⟨"Data/3.AdjacencyMatrices/good.csv", Content.csv ["a"] [["1"]]⟩])])
        "z.zip" "interim").1 "interim/Data" "out") "interim/Data"
      "interim/Data/3.AdjacencyMatrices/broken.csv" = none ∧
    (process_dataset (FS.mk ["out"] [("z.zip", FileData.zipArchive
        [⟨"Data/3.AdjacencyMatrices/broken.csv", Content.bad⟩,
         ⟨"Data/3.AdjacencyMatrices/good.csv", Content.csv ["a"] [["1"]]⟩])])
      "z.zip" "out" "interim").2 = none ∧
    (∀ q ∈ ((prevalenceStep (extract_zip (FS.mk ["out"] [("z.zip", FileData.zipArchive
        [⟨"Data/3.AdjacencyMatrices/broken.csv", Content.bad⟩,
         ⟨"Data/3.AdjacencyMatrices/good.csv", Content.csv ["a"] [["1"]]⟩])])
        "z.zip" "interim").1 "interim/Data" "out").globCsv
          (adjDir "interim/Data")).take 5, ∀ hdr rows,
      (prevalenceStep (extract_zip (FS.mk ["out"] [("z.zip", FileData.zipArchive
        [⟨"Data/3.AdjacencyMatrices/broken.csv", Content.bad⟩,
         ⟨"Data/3.AdjacencyMatrices/good.csv", Content.csv ["a"] [["1"]]⟩])])
        "z.zip" "interim").1 "interim/Data" "out").fileAt q
        = some (.plain (.csv hdr rows)) →
      (⟨baseName q, (rows.length, hdr.length), relativeTo "interim/Data" q⟩ : AdjRecord) ∈
        (((prevalenceStep (extract_zip (FS.mk ["out"] [("z.zip", FileData.zipArchive
          [⟨"Data/3.AdjacencyMatrices/broken.csv", Content.bad⟩,
           ⟨"Data/3.AdjacencyMatrices/good.csv", Content.csv ["a"] [["1"]]⟩])])
          "z.zip" "interim").1 "interim/Data" "out").globCsv
            (adjDir "interim/Data")).take 5).filterMap
          (adjRecord (prevalenceStep (extract_zip (FS.mk ["out"] [("z.zip",
            FileData.zipArchive
            [⟨"Data/3.AdjacencyMatrices/broken.csv", Content.bad⟩,
             ⟨"Data/3.AdjacencyMatrices/good.csv", Content.csv ["a"] [["1"]]⟩])])
            "z.zip" "interim").1 "interim/Data" "out") "interim/Data")) :=
  C7_per_file_load_failure_tolerated
    (FS.mk ["out"] [("z.zip", FileData.zipArchive
      [⟨"Data/3.AdjacencyMatrices/broken.csv", Content.bad⟩,
       ⟨"Data/3.AdjacencyMatrices/good.csv", Content.csv ["a"] [["1"]]⟩])])
    "z.zip" "out" "interim"
    (extract_zip (FS.mk ["out"] [("z.zip", FileData.zipArchive
      [⟨"Data/3.AdjacencyMatrices/broken.csv", Content.bad⟩,
       ⟨"Data/3.AdjacencyMatrices/good.csv", Content.csv ["a"] [["1"]]⟩])])
      "z.zip" "interim").1
    "interim/Data"
    (prevalenceStep (extract_zip (FS.mk ["out"] [("z.zip", FileData.zipArchive
      [⟨"Data/3.AdjacencyMatrices/broken.csv", Content.bad⟩,
       ⟨"Data/3.AdjacencyMatrices/good.csv", Content.csv ["a"] [["1"]]⟩])])
      "z.zip" "interim").1 "interim/Data" "out")
    "interim/Data/3.AdjacencyMatrices/broken.csv"
    (by decide) (by decide) rfl (by decide) (by decide) (by decide) (by decide)

/-- C6: with the skip flag false and the download file already present, the
orchestrator warns, issues no network request (the event list holds no
`netRequest`), and goes straight to processing the existing file; with the
skip flag true and the file absent, it raises `FileNotFoundError` before
any processing, leaving the state untouched. -/
theorem C6_orchestrator_skip_logic :
    (∀ (fs : FS) (url dp et od : String) (net : Option FileData),
      fs.pathExists dp = true →
      run fs url dp et od false net =
        ((process_dataset fs dp od et).1,
          [.warnedFileExists, .processingStarted],
          (process_dataset fs dp od et).2)) ∧
    (∀ (fs : FS) (url dp et od : String) (net : Option FileData),
      fs.pathExists dp = false →
      run fs url dp et od true net = (fs, [], some .fileNotFound)) := by
  constructor
  · intro fs url dp et od net h
    rw [run, if_neg (by simp : ¬ (false = true)), if_pos h]
  · intro fs url dp et od net h
    rw [run, if_pos rfl, if_neg (by simp [h])]

/-- Witness for C6: an existing (non-zip) download file with the skip flag
false, and an empty file system with the skip flag true. -/
theorem C6_orchestrator_skip_logic_witness :
    run (FS.mk [] [("dl.zip", FileData.plain Content.bad)]) "u" "dl.zip" "interim" "out"
        false none =
      ((process_dataset (FS.mk [] [("dl.zip", FileData.plain Content.bad)])
          "dl.zip" "out" "interim").1,
        [.warnedFileExists, .processingStarted],
        (process_dataset (FS.mk [] [("dl.zip", FileData.plain Content.bad)])
          "dl.zip" "out" "interim").2) ∧
    run (FS.mk [] []) "u" "dl.zip" "interim" "out" true none =
      (FS.mk [] [], [], some .fileNotFound) :=
  ⟨C6_orchestrator_skip_logic.1 (FS.mk [] [("dl.zip", FileData.plain Content.bad)])
      "u" "dl.zip" "interim" "out" none (by decide),
   C6_orchestrator_skip_logic.2 (FS.mk [] []) "u" "dl.zip" "interim" "out" none (by decide)⟩
